import Mathlib

/-!
Verification of the tool-dispatch and argument-validation layer of the
`langchain-cdp-chatbot` example (`chatbot.py`).

The Python source is shallowly embedded:

* Python `str.split()` / `str.strip()` / `int(str)` are modelled over
  `List Char` (ASCII whitespace and digits; CPython additionally accepts
  some Unicode whitespace and digits, which no claim exercises).
* Python `decimal.Decimal` values are modelled as a sign, an
  arbitrary-precision coefficient and a base-10 exponent.  Construction from
  a string is exact; multiplication follows the default CPython context
  (precision 28 significant digits, rounding half-to-even).  The special
  values `Infinity`/`NaN` are modelled as parse failures: on the only path
  that parses decimals (`parse_withdraw_args`) they raise inside the same
  `try` block at the `int(...)` conversion and produce the identical error
  string, so the observable behaviour coincides.
* The wallet provider and the web3 ABI encoder are external collaborators.
  They are modelled as explicit function-valued parameters (`Wallet`) and a
  symbolic encoder (`encode_abi`) that retains the function name and the
  argument list, failing exactly when the function name is absent from the
  ABI or the argument count mismatches.  Per-argument representational
  encoding (hex calldata) is outside the model.
* The `deposit_eth` tool closure applies Python `float()` to its argument
  before any other processing; binary floating point is outside this
  embedding, and theorems about the deposit path are stated only where they
  do not depend on it.
-/

namespace Chatbot

/-! ### Python string primitives -/

/-- ASCII whitespace as recognised by Python `str.split` / `str.strip`. -/
def isPySpace (c : Char) : Bool :=
  c = ' ' || c = '\t' || c = '\n' || c = '\r' || c = '\x0b' || c = '\x0c'

/-- Python `str.strip()`: remove leading and trailing whitespace. -/
def pyStripChars (l : List Char) : List Char :=
  ((l.dropWhile isPySpace).reverse.dropWhile isPySpace).reverse

/-- Python `str.strip()` on `String`. -/
def pyStrip (s : String) : String :=
  String.mk (pyStripChars s.data)

/-- Accumulator-based worker for Python `str.split()` with no separator:
split on runs of whitespace, discarding empty fields. -/
def pySplitAux : List Char → List Char → List (List Char)
  | [], acc => if acc.isEmpty then [] else [acc.reverse]
  | c :: cs, acc =>
    if isPySpace c then
      if acc.isEmpty then pySplitAux cs [] else acc.reverse :: pySplitAux cs []
    else pySplitAux cs (c :: acc)

/-- Python `str.split()` with no separator. -/
def pySplit (s : String) : List String :=
  (pySplitAux s.data []).map String.mk

/-! ### Python `int(str)` -/

/-- Numeric value of an ASCII digit. -/
def digitVal (c : Char) : Nat := c.toNat - 48

/-- Digits of a base-10 literal, allowing single underscores between digits
(CPython numeric-literal rule); the accumulator holds the value so far. -/
def parseDigitsUAux : List Char → Nat → Option Nat
  | [], acc => some acc
  | '_' :: rest, acc =>
    match rest with
    | [] => none
    | c :: rest2 =>
      if c.isDigit then parseDigitsUAux rest2 (acc * 10 + digitVal c) else none
  | c :: rest, acc =>
    if c.isDigit then parseDigitsUAux rest (acc * 10 + digitVal c) else none

/-- A nonempty digit sequence (underscores allowed between digits). -/
def parseDigitsU : List Char → Option Nat
  | [] => none
  | c :: rest => if c.isDigit then parseDigitsUAux rest (digitVal c) else none

/-- Python `int(str)`: optional surrounding whitespace, optional sign,
nonempty digit sequence; `ValueError` is `none`. -/
def pyIntOfChars (l : List Char) : Option Int :=
  let t := pyStripChars l
  match t with
  | '+' :: rest => (parseDigitsU rest).map (fun n => (n : Int))
  | '-' :: rest => (parseDigitsU rest).map (fun n => -(n : Int))
  | _ => (parseDigitsU t).map (fun n => (n : Int))

/-- Python `int(str)` on `String`. -/
def pyint (s : String) : Option Int := pyIntOfChars s.data

/-! ### Python `decimal.Decimal` -/

/-- A finite CPython `Decimal`: value `(-1)^neg * coeff * 10^exp`.
The coefficient is kept exactly as constructed (no normalisation), matching
`Decimal.as_tuple` up to leading zeros, which CPython also drops. -/
structure PyDec where
  neg : Bool
  coeff : Nat
  exp : Int
deriving DecidableEq, Repr

/-- `Decimal(0)`, the default `value` argument of `invoke_contract_function`. -/
def pyDecZero : PyDec := ⟨false, 0, 0⟩

/-- Value of a digit list read left to right. -/
def natOfDigits (l : List Char) : Nat :=
  l.foldl (fun acc c => acc * 10 + digitVal c) 0

/-- Optional exponent part `e`/`E` of a decimal literal; `some 0` when
absent, `none` on trailing garbage. -/
def parseExpPart : List Char → Option Int
  | [] => some 0
  | c :: rest =>
    if c = 'e' || c = 'E' then
      match rest with
      | '+' :: ds =>
        if !ds.isEmpty && ds.all Char.isDigit then some ((natOfDigits ds : Nat) : Int) else none
      | '-' :: ds =>
        if !ds.isEmpty && ds.all Char.isDigit then some (-((natOfDigits ds : Nat) : Int)) else none
      | ds =>
        if !ds.isEmpty && ds.all Char.isDigit then some ((natOfDigits ds : Nat) : Int) else none
    else none

/-- Unsigned core of a decimal literal: `digits [. digits] [exp]` with at
least one digit; yields coefficient and exponent. -/
def parseDecCore (l : List Char) : Option (Nat × Int) :=
  let ip := l.takeWhile Char.isDigit
  let r1 := l.dropWhile Char.isDigit
  match r1 with
  | '.' :: r2 =>
    let fp := r2.takeWhile Char.isDigit
    let r3 := r2.dropWhile Char.isDigit
    if ip.isEmpty && fp.isEmpty then none
    else
      match parseExpPart r3 with
      | none => none
      | some e => some (natOfDigits (ip ++ fp), e - (fp.length : Int))
  | _ =>
    if ip.isEmpty then none
    else
      match parseExpPart r1 with
      | none => none
      | some e => some (natOfDigits ip, e)

/-- CPython `Decimal(str)` for finite values: surrounding whitespace and a
sign are allowed; construction never rounds.  Special values (`inf`, `nan`)
and underscored literals are outside the model (see the header note). -/
def parseDecimal (s : String) : Option PyDec :=
  let t := pyStripChars s.data
  match t with
  | '+' :: rest => (parseDecCore rest).map (fun p => ⟨false, p.1, p.2⟩)
  | '-' :: rest => (parseDecCore rest).map (fun p => ⟨true, p.1, p.2⟩)
  | _ => (parseDecCore t).map (fun p => ⟨false, p.1, p.2⟩)

/-- Number of decimal digits of a coefficient (`1` for `0`), i.e. the digit
count CPython stores for it. -/
def numDigits (n : Nat) : Nat := (Nat.toDigits 10 n).length

/-- Divide `c` by `p`, rounding half to even (CPython `ROUND_HALF_EVEN`). -/
def roundHalfEvenDiv (c : Nat) (p : Nat) : Nat :=
  let q := c / p
  let r := c % p
  if 2 * r > p then q + 1
  else if 2 * r < p then q
  else if q % 2 = 0 then q else q + 1

/-- `x * Decimal(10**18)` under the default CPython context: the exact
product coefficient is rounded half-to-even to 28 significant digits. -/
def decTimesPow18 (x : PyDec) : PyDec :=
  let c := x.coeff * 10 ^ 18
  let nd := numDigits c
  if nd ≤ 28 then ⟨x.neg, c, x.exp⟩
  else ⟨x.neg, roundHalfEvenDiv c (10 ^ (nd - 28)), x.exp + ((nd - 28 : Nat) : Int)⟩

/-- Python `int(Decimal)`: truncate toward zero. -/
def intOfDec (x : PyDec) : Int :=
  let m : Nat :=
    if 0 ≤ x.exp then x.coeff * 10 ^ x.exp.toNat
    else x.coeff / 10 ^ (-x.exp).toNat
  if x.neg then -(m : Int) else (m : Int)

/-- `value > Decimal(0)` (exact comparison, no context involved). -/
def decGtZero (x : PyDec) : Bool := !x.neg && x.coeff != 0

/-! ### Contract interface descriptor (`SMART_CONTRACT_ABI`) -/

/-- One entry of an ABI `inputs`/`outputs` list. -/
structure AbiParam where
  internalType : String
  name : String
  type : String
deriving DecidableEq, Repr

/-- One entry of the contract ABI; `name`/`outputs` keys are absent on the
constructor entry, hence optional. -/
structure AbiEntry where
  name : Option String := none
  inputs : List AbiParam
  outputs : Option (List AbiParam) := none
  stateMutability : String
  type : String
deriving DecidableEq, Repr

/-- The deployed contract address (chatbot.py line 40). -/
def SMART_CONTRACT_ADDRESS : String := "0xa633656593bB24252A55A468146fe9536eA899cB"

/-- The contract ABI (chatbot.py lines 42-129), entry for entry. -/
def SMART_CONTRACT_ABI : List AbiEntry := [
  { inputs := [], stateMutability := "nonpayable", type := "constructor" },
  { inputs := [], name := some "deposit", outputs := some [],
    stateMutability := "payable", type := "function" },
  { inputs := [⟨"address", "tokenAddress", "address"⟩, ⟨"uint256", "amount", "uint256"⟩],
    name := some "depositERC20", outputs := some [],
    stateMutability := "nonpayable", type := "function" },
  { inputs := [], name := some "destroyContract", outputs := some [],
    stateMutability := "nonpayable", type := "function" },
  { inputs := [], name := some "getBalance", outputs := some [⟨"uint256", "", "uint256"⟩],
    stateMutability := "view", type := "function" },
  { inputs := [⟨"address", "token", "address"⟩],
    name := some "getERC20Balance", outputs := some [⟨"uint256", "", "uint256"⟩],
    stateMutability := "view", type := "function" },
  { inputs := [], name := some "getCounter", outputs := some [⟨"uint256", "", "uint256"⟩],
    stateMutability := "view", type := "function" },
  { inputs := [], name := some "incrementCounter", outputs := some [],
    stateMutability := "nonpayable", type := "function" },
  { inputs := [⟨"address", "to", "address"⟩, ⟨"uint256", "amount", "uint256"⟩],
    name := some "withdraw", outputs := some [],
    stateMutability := "nonpayable", type := "function" },
  { inputs := [⟨"address", "token", "address"⟩, ⟨"address", "to", "address"⟩,
               ⟨"uint256", "amount", "uint256"⟩],
    name := some "withdrawERC20", outputs := some [],
    stateMutability := "nonpayable", type := "function" }]

/-- Names of the functions the ABI declares. -/
def abiFunctionNames : List String :=
  (SMART_CONTRACT_ABI.filter (fun e => e.type == "function")).filterMap (fun e => e.name)

/-- Mutability of a named ABI function, when it exists. -/
def abiMutability (fn : String) : Option String :=
  (SMART_CONTRACT_ABI.find? (fun e => e.type == "function" && e.name == some fn)).map
    (fun e => e.stateMutability)

/-! ### Dispatcher (`invoke_contract_function`, `read_contract_function`) -/

/-- A Python value passed as a contract-call argument: an address string or
an arbitrary-precision integer. -/
inductive PyValue where
  | str (s : String)
  | int (n : Int)
deriving DecidableEq, Repr

/-- Symbolic ABI-encoded calldata: the function name and argument list it
was built from (web3 hex encoding is outside the model). -/
structure CallData where
  functionName : String
  args : List PyValue
deriving DecidableEq, Repr

/-- A hexadecimal digit. -/
def isHexChar (c : Char) : Bool :=
  c.isDigit || ('a' ≤ c && c ≤ 'f') || ('A' ≤ c && c ≤ 'F')

/-- A lowercase hex letter. -/
def isLowerHexLetter (c : Char) : Bool := 'a' ≤ c && c ≤ 'f'

/-- An uppercase hex letter. -/
def isUpperHexLetter (c : Char) : Bool := 'A' ≤ c && c ≤ 'F'

/-- Models the address validation performed inside the web3 encoder
(eth_utils `is_address` on string input): a `0x`-prefixed 40-hex-digit
string.  A mixed-case address is additionally subject to EIP-55 checksum
validation, which is keccak-based and not modelled: the model
conservatively accepts only uniform-case hex addresses, and no theorem
below evaluates the encoder at a mixed-case address. -/
def isEncodableAddress (s : String) : Bool :=
  match s.data with
  | '0' :: 'x' :: rest =>
    rest.length == 40 && rest.all isHexChar &&
      (rest.all (fun c => !isUpperHexLetter c) || rest.all (fun c => !isLowerHexLetter c))
  | _ => false

/-- Models eth_abi's per-argument encodability check for the two solidity
types this ABI uses: `uint256` takes an integer in `[0, 2^256)`, `address`
takes an encodable address string; anything else is unencodable. -/
def isEncodableArg (solidityType : String) (v : PyValue) : Bool :=
  match solidityType, v with
  | "address", .str s => isEncodableAddress s
  | "uint256", .int n => decide (0 ≤ n) && decide (n < 2 ^ 256)
  | _, _ => false

/-- Models web3 `contract.encode_abi(function_name, args)`: fails when the
function name is not declared in the ABI, when the argument count
mismatches, or when some argument is not encodable at its declared type
(negative or out-of-range integers for `uint256`, malformed strings for
`address`); otherwise returns the symbolic calldata.  The error-message
wording is the model's — web3's differs — and no theorem depends on it
beyond being a collaborator message. -/
def encode_abi (abi : List AbiEntry) (function_name : String) (args : List PyValue) :
    Except String CallData :=
  match abi.find? (fun e => e.type == "function" && e.name == some function_name) with
  | none => .error ("Could not identify the intended function with name " ++ function_name)
  | some e =>
    if args.length = e.inputs.length then
      if (e.inputs.zip args).all (fun p => isEncodableArg p.1.type p.2) then
        .ok ⟨function_name, args⟩
      else .error ("One or more arguments could not be encoded for " ++ function_name)
    else .error ("incorrect argument count for " ++ function_name)

/-- The outgoing transaction request (`tx_params`): the `value` key is
present exactly when the field is `some`.  The Python dict key `to` is a
reserved token in Lean, hence the field name `to_`. -/
structure TxParams where
  to_ : String
  data : CallData
  value : Option Int
deriving DecidableEq, Repr

/-- The external wallet/provider collaborator: any raised exception is a
`.error` carrying `str(e)`. -/
structure Wallet where
  send_transaction : TxParams → Except String String
  wait_for_transaction_receipt : String → Except String Unit
  read_contract : String → List AbiEntry → String → List PyValue → Except String Int

/-- The `tx_params` built by `invoke_contract_function` (chatbot.py lines
153-159): `to` and `data` always; `value` only when `value > Decimal(0)`,
as `int(value * Decimal(10**18))`. -/
def build_tx_params (data : CallData) (value : PyDec) : TxParams :=
  if decGtZero value then
    { to_ := SMART_CONTRACT_ADDRESS, data := data,
      value := some (intOfDec (decTimesPow18 value)) }
  else
    { to_ := SMART_CONTRACT_ADDRESS, data := data, value := none }

/-- `invoke_contract_function` (chatbot.py lines 136-166).  The Python
defaults `args=None` (meaning `[]`) and `value=Decimal(0)` are passed
explicitly by the wrappers below.  The surrounding `try` is modelled by
propagating each collaborator `.error` into the rendered string. -/
def invoke_contract_function (w : Wallet) (function_name : String)
    (args : List PyValue) (value : PyDec) : String :=
  match encode_abi SMART_CONTRACT_ABI function_name args with
  | .error e => "Error calling " ++ function_name ++ ": " ++ e
  | .ok data =>
    let tx_params := build_tx_params data value
    match w.send_transaction tx_params with
    | .error e => "Error calling " ++ function_name ++ ": " ++ e
    | .ok tx_hash =>
      match w.wait_for_transaction_receipt tx_hash with
      | .error e => "Error calling " ++ function_name ++ ": " ++ e
      | .ok _ =>
        "Successfully called " ++ function_name ++ ". Transaction hash: " ++ tx_hash

/-- A Python value returned by a tool on the read path: the raw integer
result of the view call, or a rendered error string. -/
inductive PyObj where
  | intVal (n : Int)
  | strVal (s : String)
deriving DecidableEq, Repr

/-- `read_contract_function` (chatbot.py lines 169-186): the collaborator
result is returned raw; any exception is rendered without the function
name. -/
def read_contract_function (w : Wallet) (function_name : String)
    (args : List PyValue) : PyObj :=
  match w.read_contract SMART_CONTRACT_ADDRESS SMART_CONTRACT_ABI function_name args with
  | .ok v => .intVal v
  | .error e => .strVal ("Error reading from contract: " ++ e)

/-! ### Contract-operation wrappers (chatbot.py lines 193-252)

`deposit_to_contract` (lines 193-199) is not embedded: its `value_in_eth`
parameter is a Python `float`, see the header note. -/

/-- `deposit_erc20_to_contract` (lines 201-211). -/
def deposit_erc20_to_contract (w : Wallet) (token_address : String) (amount : Int) : String :=
  invoke_contract_function w "depositERC20" [.str token_address, .int amount] pyDecZero

/-- `increment_counter` (lines 213-215). -/
def increment_counter (w : Wallet) : String :=
  invoke_contract_function w "incrementCounter" [] pyDecZero

/-- `get_contract_balance` (lines 217-219). -/
def get_contract_balance (w : Wallet) : PyObj :=
  read_contract_function w "getBalance" []

/-- `get_contract_counter` (lines 221-223). -/
def get_contract_counter (w : Wallet) : PyObj :=
  read_contract_function w "getCounter" []

/-- `get_contract_erc20_balance` (lines 225-227). -/
def get_contract_erc20_balance (w : Wallet) (token_address : String) : PyObj :=
  read_contract_function w "getERC20Balance" [.str token_address]

/-- `withdraw_from_contract` (lines 229-239). -/
def withdraw_from_contract (w : Wallet) (to_address : String) (amount_in_wei : Int) : String :=
  invoke_contract_function w "withdraw" [.str to_address, .int amount_in_wei] pyDecZero

/-- `withdraw_erc20_from_contract` (lines 241-252). -/
def withdraw_erc20_from_contract (w : Wallet) (token_address to_address : String)
    (amount : Int) : String :=
  invoke_contract_function w "withdrawERC20"
    [.str token_address, .str to_address, .int amount] pyDecZero

/-! ### Per-tool argument parsers (chatbot.py lines 259-322)

The global `wallet_provider` captured by the Python closures is passed
explicitly as `w`. -/

/-- `parse_deposit_erc20_args` (lines 259-272). -/
def parse_deposit_erc20_args (w : Wallet) (input_str : String) : String :=
  match pySplit (pyStrip input_str) with
  | [token_addr, amount_str] =>
    match pyint amount_str with
    | none => "Error: AMOUNT must be an integer."
    | some amount_int => deposit_erc20_to_contract w token_addr amount_int
  | _ => "Error: Provide 'TOKEN_ADDRESS AMOUNT' separated by a space."

/-- `parse_erc20_balance_args` (lines 275-283); `if not token_addr` is the
emptiness test on the stripped string. -/
def parse_erc20_balance_args (w : Wallet) (input_str : String) : PyObj :=
  let token_addr := pyStrip input_str
  if token_addr = "" then .strVal "Error: Provide a valid token address."
  else get_contract_erc20_balance w token_addr

/-- `parse_withdraw_args` (lines 286-303): the bare `except` around
`Decimal(...)` and `int(...)` maps to the `none` branch. -/
def parse_withdraw_args (w : Wallet) (input_str : String) : String :=
  match pySplit (pyStrip input_str) with
  | [to_addr, amount_eth_str] =>
    match parseDecimal amount_eth_str with
    | none => "Error: Amount must be a valid decimal, e.g. 0.01"
    | some val => withdraw_from_contract w to_addr (intOfDec (decTimesPow18 val))
  | _ => "Error: Provide 'TO_ADDRESS AMOUNT_IN_ETH'. Example: '0xReceiver 0.01'"

/-- `parse_withdraw_erc20_args` (lines 306-322). -/
def parse_withdraw_erc20_args (w : Wallet) (input_str : String) : String :=
  match pySplit (pyStrip input_str) with
  | [token_addr, to_addr, amount_str] =>
    match pyint amount_str with
    | none => "Error: AMOUNT must be an integer."
    | some amount_int => withdraw_erc20_from_contract w token_addr to_addr amount_int
  | _ => "Error: Provide 'TOKEN_ADDRESS TO_ADDRESS AMOUNT'. Example: '0xSomeToken 0xReceiver 100000'"

/-! ### Tool registry (chatbot.py lines 367-433) -/

/-- The `increment_counter` tool closure (lines 389-393): `lambda _:`
ignores the raw argument string entirely. -/
def increment_counter_tool (w : Wallet) (_input_str : String) : String :=
  increment_counter w

/-- A registered tool name together with the contract function its closure
ultimately invokes. -/
structure ToolBinding where
  toolName : String
  functionName : String
deriving DecidableEq, Repr

/-- The eight custom tools (lines 367-433) with the function each closure
reaches: `deposit_eth` → `deposit_to_contract` → `"deposit"`;
`deposit_erc20` → `parse_deposit_erc20_args` → `"depositERC20"`;
`increment_counter` → `"incrementCounter"`; `get_contract_balance` →
`"getBalance"`; `get_contract_counter` → `"getCounter"`;
`get_contract_erc20_balance` → `"getERC20Balance"`; `withdraw` →
`parse_withdraw_args` → `"withdraw"`; `withdraw_erc20` →
`parse_withdraw_erc20_args` → `"withdrawERC20"`. -/
def custom_contract_tools : List ToolBinding := [
  ⟨"deposit_eth", "deposit"⟩,
  ⟨"deposit_erc20", "depositERC20"⟩,
  ⟨"increment_counter", "incrementCounter"⟩,
  ⟨"get_contract_balance", "getBalance"⟩,
  ⟨"get_contract_counter", "getCounter"⟩,
  ⟨"get_contract_erc20_balance", "getERC20Balance"⟩,
  ⟨"withdraw", "withdraw"⟩,
  ⟨"withdraw_erc20", "withdrawERC20"⟩]

/-! ## Claim theorems -/

/-- C2: for every mutating-path invocation — any function name, argument
list and value — a failure reported by the encoder, by `send_transaction`
or by `wait_for_transaction_receipt` is caught and rendered as
`Error calling {functionName}: {message}`; when all three succeed the
result is a text string carrying the transaction hash. -/
theorem c2_invoke_outcomes (w : Wallet) (fn : String) (args : List PyValue) (v : PyDec) :
    (∀ e, encode_abi SMART_CONTRACT_ABI fn args = .error e →
      invoke_contract_function w fn args v = "Error calling " ++ fn ++ ": " ++ e) ∧
    (∀ d e, encode_abi SMART_CONTRACT_ABI fn args = .ok d →
      w.send_transaction (build_tx_params d v) = .error e →
      invoke_contract_function w fn args v = "Error calling " ++ fn ++ ": " ++ e) ∧
    (∀ d h e, encode_abi SMART_CONTRACT_ABI fn args = .ok d →
      w.send_transaction (build_tx_params d v) = .ok h →
      w.wait_for_transaction_receipt h = .error e →
      invoke_contract_function w fn args v = "Error calling " ++ fn ++ ": " ++ e) ∧
    (∀ d h, encode_abi SMART_CONTRACT_ABI fn args = .ok d →
      w.send_transaction (build_tx_params d v) = .ok h →
      w.wait_for_transaction_receipt h = .ok () →
      invoke_contract_function w fn args v =
        "Successfully called " ++ fn ++ ". Transaction hash: " ++ h) := by
  refine ⟨?_, ?_, ?_, ?_⟩
  · intro e he
    simp [invoke_contract_function, he]
  · intro d e hd hs
    simp [invoke_contract_function, hd, hs]
  · intro d h e hd hs hw
    simp [invoke_contract_function, hd, hs, hw]
  · intro d h hd hs hw
    simp [invoke_contract_function, hd, hs, hw]

/-- Witness for C2: a wallet whose `send_transaction` raises `boom` makes
`invoke_contract_function` return the rendered error string. -/
theorem c2_witness :
    invoke_contract_function
      ⟨fun _ => .error "boom", fun _ => .ok (), fun _ _ _ _ => .error ""⟩
      "incrementCounter" [] pyDecZero = "Error calling incrementCounter: boom" :=
  (c2_invoke_outcomes _ "incrementCounter" [] pyDecZero).2.1
    ⟨"incrementCounter", []⟩ "boom" rfl rfl

/-- C9: on the read-only path any collaborator failure is rendered as
`Error reading from contract: {message}` — a string built from the message
alone, never mentioning the function name — while a collaborator success is
returned raw, not wrapped in any message; the three read wrappers all route
through this path. -/
theorem c9_read_outcomes (w : Wallet) (fn : String) (args : List PyValue) :
    (∀ v, w.read_contract SMART_CONTRACT_ADDRESS SMART_CONTRACT_ABI fn args = .ok v →
      read_contract_function w fn args = .intVal v) ∧
    (∀ msg, w.read_contract SMART_CONTRACT_ADDRESS SMART_CONTRACT_ABI fn args = .error msg →
      read_contract_function w fn args = .strVal ("Error reading from contract: " ++ msg)) ∧
    (get_contract_balance w = read_contract_function w "getBalance" []) ∧
    (get_contract_counter w = read_contract_function w "getCounter" []) ∧
    (∀ t, get_contract_erc20_balance w t = read_contract_function w "getERC20Balance" [.str t]) := by
  refine ⟨?_, ?_, rfl, rfl, fun t => rfl⟩
  · intro v hv
    simp [read_contract_function, hv]
  · intro msg hmsg
    simp [read_contract_function, hmsg]

/-- Witness for C9: a collaborator that raises `boom` on `getCounter` is
rendered without the function name; one that returns `7` is returned raw. -/
theorem c9_witness :
    read_contract_function ⟨fun _ => .ok "", fun _ => .ok (), fun _ _ _ _ => .error "boom"⟩
      "getCounter" [] = .strVal "Error reading from contract: boom" ∧
    read_contract_function ⟨fun _ => .ok "", fun _ => .ok (), fun _ _ _ _ => .ok 7⟩
      "getCounter" [] = .intVal 7 :=
  ⟨(c9_read_outcomes _ "getCounter" []).2.1 "boom" rfl,
   (c9_read_outcomes _ "getCounter" []).1 7 rfl⟩

/-- C5: each of the eight registered custom tools binds a contract function
name that is declared in `SMART_CONTRACT_ABI`.  (The registry itself holds
the invariant as data; `initialize_agent` performs no explicit startup
check, so the fail-fast clause of the claim is vacuous — no mismatched tool
exists to exercise it.) -/
theorem c5_registry_resolves :
    custom_contract_tools.length = 8 ∧
    ∀ t ∈ custom_contract_tools, t.functionName ∈ abiFunctionNames := by
  exact ⟨rfl, by decide⟩

/-- Witness for C5: the binding of the `deposit_eth` tool resolves. -/
theorem c5_witness : ("deposit" : String) ∈ abiFunctionNames :=
  c5_registry_resolves.2 ⟨"deposit_eth", "deposit"⟩ (by decide)

/-- C6: the built transaction request carries a `value` field exactly when
`value > Decimal(0)`: with value zero (which all four nonpayable mutating
wrappers pass) the request is just `to` and `data`; with a positive value
the field is the truncated wei amount `int(value * 10^18)`; and `deposit`,
the only function invoked with a nonzero value, is `payable` in the ABI
while the four wrapped functions are `nonpayable`. -/
theorem c6_value_field :
    (∀ d : CallData, build_tx_params d pyDecZero =
      { to_ := SMART_CONTRACT_ADDRESS, data := d, value := none }) ∧
    (∀ d v, decGtZero v = true → build_tx_params d v =
      { to_ := SMART_CONTRACT_ADDRESS, data := d,
        value := some (intOfDec (decTimesPow18 v)) }) ∧
    (abiMutability "deposit" = some "payable") ∧
    (∀ w a n, deposit_erc20_to_contract w a n =
      invoke_contract_function w "depositERC20" [.str a, .int n] pyDecZero) ∧
    (∀ w, increment_counter w = invoke_contract_function w "incrementCounter" [] pyDecZero) ∧
    (∀ w a n, withdraw_from_contract w a n =
      invoke_contract_function w "withdraw" [.str a, .int n] pyDecZero) ∧
    (∀ w a b n, withdraw_erc20_from_contract w a b n =
      invoke_contract_function w "withdrawERC20" [.str a, .str b, .int n] pyDecZero) ∧
    (∀ fn ∈ (["depositERC20", "incrementCounter", "withdraw", "withdrawERC20"] : List String),
      abiMutability fn = some "nonpayable") := by
  refine ⟨?_, ?_, rfl, fun w a n => rfl, fun w => rfl, fun w a n => rfl,
    fun w a b n => rfl, by decide⟩
  · intro d
    simp [build_tx_params, decGtZero, pyDecZero]
  · intro d v h
    simp [build_tx_params, h]

/-- Witness for C6: a positive value of `0.01` ETH puts exactly
`10^16` wei in the `value` field, and `withdraw` is nonpayable. -/
theorem c6_witness :
    build_tx_params ⟨"deposit", []⟩ ⟨false, 1, -2⟩ =
      { to_ := SMART_CONTRACT_ADDRESS, data := ⟨"deposit", []⟩,
        value := some 10000000000000000 } ∧
    abiMutability "withdraw" = some "nonpayable" :=
  ⟨(c6_value_field.2.1 ⟨"deposit", []⟩ ⟨false, 1, -2⟩ rfl).trans (by decide),
   c6_value_field.2.2.2.2.2.2.2 "withdraw" (by decide)⟩

/-- C7: any `withdraw_erc20` input with fewer than three whitespace
tokens yields the usage message for every wallet behaviour, so no
encoding or transaction submission can be observed. -/
theorem c7_withdraw_erc20_arity (w : Wallet) (s : String)
    (h : (pySplit (pyStrip s)).length < 3) :
    parse_withdraw_erc20_args w s =
      "Error: Provide 'TOKEN_ADDRESS TO_ADDRESS AMOUNT'. Example: '0xSomeToken 0xReceiver 100000'" := by
  rcases h' : pySplit (pyStrip s) with _ | ⟨a, _ | ⟨b, _ | ⟨c, rest⟩⟩⟩
  · simp [parse_withdraw_erc20_args, h']
  · simp [parse_withdraw_erc20_args, h']
  · simp [parse_withdraw_erc20_args, h']
  · rw [h'] at h
    simp at h
    omega

/-- Witness for C7: the two-token input from the spec scenario. -/
theorem c7_witness :
    parse_withdraw_erc20_args
      ⟨fun _ => .ok "0xhash", fun _ => .ok (), fun _ _ _ _ => .ok 0⟩
      "0xToken 0xReceiver" =
      "Error: Provide 'TOKEN_ADDRESS TO_ADDRESS AMOUNT'. Example: '0xSomeToken 0xReceiver 100000'" :=
  c7_withdraw_erc20_arity _ "0xToken 0xReceiver" (by decide)

/-- C1 counterexample: the `increment_counter` tool has arity 0, yet on the
two-token argument string `unexpected arguments` it returns no
`ArgumentCountError` — it proceeds all the way to the transaction
collaborator and reports the returned hash. -/
theorem c1_counterexample :
    (pySplit (pyStrip "unexpected arguments")).length = 2 ∧
    increment_counter_tool
      ⟨fun _ => .ok "0xhash", fun _ => .ok (), fun _ _ _ _ => .error ""⟩
      "unexpected arguments" =
      "Successfully called incrementCounter. Transaction hash: 0xhash" := by
  exact ⟨by decide, rfl⟩

/-- C1 amended: the three multi-token string-parsing tools
(`deposit_erc20`, `withdraw`, `withdraw_erc20`) do return their usage
message on a token-count mismatch, for every wallet behaviour (hence
without encoding or issuing a call); the zero-argument tools ignore their
argument string and always proceed, and `deposit_eth` applies `float()`
directly, raising an uncaught `ValueError` on mismatched input. -/
theorem c1_amended (w : Wallet) (s : String) :
    ((pySplit (pyStrip s)).length ≠ 2 →
      parse_deposit_erc20_args w s = "Error: Provide 'TOKEN_ADDRESS AMOUNT' separated by a space.") ∧
    ((pySplit (pyStrip s)).length ≠ 2 →
      parse_withdraw_args w s = "Error: Provide 'TO_ADDRESS AMOUNT_IN_ETH'. Example: '0xReceiver 0.01'") ∧
    ((pySplit (pyStrip s)).length ≠ 3 →
      parse_withdraw_erc20_args w s =
        "Error: Provide 'TOKEN_ADDRESS TO_ADDRESS AMOUNT'. Example: '0xSomeToken 0xReceiver 100000'") := by
  refine ⟨?_, ?_, ?_⟩
  · intro h
    rcases h' : pySplit (pyStrip s) with _ | ⟨a, _ | ⟨b, rest⟩⟩
    · simp [parse_deposit_erc20_args, h']
    · simp [parse_deposit_erc20_args, h']
    · rcases rest with _ | ⟨c, rest'⟩
      · rw [h'] at h
        simp at h
      · simp [parse_deposit_erc20_args, h']
  · intro h
    rcases h' : pySplit (pyStrip s) with _ | ⟨a, _ | ⟨b, rest⟩⟩
    · simp [parse_withdraw_args, h']
    · simp [parse_withdraw_args, h']
    · rcases rest with _ | ⟨c, rest'⟩
      · rw [h'] at h
        simp at h
      · simp [parse_withdraw_args, h']
  · intro h
    rcases h' : pySplit (pyStrip s) with _ | ⟨a, _ | ⟨b, _ | ⟨c, rest⟩⟩⟩
    · simp [parse_withdraw_erc20_args, h']
    · simp [parse_withdraw_erc20_args, h']
    · simp [parse_withdraw_erc20_args, h']
    · rcases rest with _ | ⟨d, rest'⟩
      · rw [h'] at h
        simp at h
      · simp [parse_withdraw_erc20_args, h']

/-- Witness for C1 amended: a one-token input mismatches all three
grammars and each parser answers with its usage message. -/
theorem c1_amended_witness :
    parse_deposit_erc20_args
      ⟨fun _ => .ok "0xhash", fun _ => .ok (), fun _ _ _ _ => .ok 0⟩ "0xOnlyOneToken" =
      "Error: Provide 'TOKEN_ADDRESS AMOUNT' separated by a space." ∧
    parse_withdraw_args
      ⟨fun _ => .ok "0xhash", fun _ => .ok (), fun _ _ _ _ => .ok 0⟩ "0xOnlyOneToken" =
      "Error: Provide 'TO_ADDRESS AMOUNT_IN_ETH'. Example: '0xReceiver 0.01'" ∧
    parse_withdraw_erc20_args
      ⟨fun _ => .ok "0xhash", fun _ => .ok (), fun _ _ _ _ => .ok 0⟩ "0xOnlyOneToken" =
      "Error: Provide 'TOKEN_ADDRESS TO_ADDRESS AMOUNT'. Example: '0xSomeToken 0xReceiver 100000'" :=
  ⟨(c1_amended _ "0xOnlyOneToken").1 (by decide),
   (c1_amended _ "0xOnlyOneToken").2.1 (by decide),
   (c1_amended _ "0xOnlyOneToken").2.2 (by decide)⟩

/-- A product coefficient of at most 28 digits is not rounded by the
context. -/
theorem decTimesPow18_no_round (x : PyDec) (h : numDigits (x.coeff * 10 ^ 18) ≤ 28) :
    decTimesPow18 x = ⟨x.neg, x.coeff * 10 ^ 18, x.exp⟩ := by
  simp only [decTimesPow18]
  rw [if_pos h]

/-- `int()` of a decimal, with the sign factored out of the truncated
magnitude. -/
theorem intOfDec_def (x : PyDec) :
    intOfDec x = (if x.neg then -1 else 1) *
      ((if 0 ≤ x.exp then x.coeff * 10 ^ x.exp.toNat
        else x.coeff / 10 ^ (-x.exp).toNat : Nat) : Int) := by
  unfold intOfDec
  cases x.neg
  · simp
  · simp
    split <;> rfl

set_option maxRecDepth 8000 in
/-- C3 counterexample: the 18-fractional-digit literal
`12345678901.123456789012345678` is parsed exactly, but the default
context (28 significant digits, half-even) rounds the product with
`10^18`, so with a well-formed recipient address the withdraw path
encodes and submits `...680` wei where the exact amount is `...678` —
conversion is not exact for every literal with at most 18 fractional
digits.  The probe wallet answers `EXACT` only to a request whose
calldata carries the exact amount. -/
theorem c3_counterexample :
    parseDecimal "12345678901.123456789012345678" =
      some ⟨false, 12345678901123456789012345678, -18⟩ ∧
    intOfDec (decTimesPow18 ⟨false, 12345678901123456789012345678, -18⟩) =
      12345678901123456789012345680 ∧
    parse_withdraw_args
      ⟨fun tx =>
          if tx.data = ⟨"withdraw", [.str "0x1234567890abcdef1234567890abcdef12345678",
              .int 12345678901123456789012345678]⟩
          then .ok "EXACT" else .ok "ROUNDED",
        fun _ => .ok (), fun _ _ _ _ => .error ""⟩
      "0x1234567890abcdef1234567890abcdef12345678 12345678901.123456789012345678" =
      "Successfully called withdraw. Transaction hash: ROUNDED" := by
  exact ⟨by decide, by decide, by decide⟩

/-- C3 amended: on the withdraw path, ETH decimals are multiplied by
`10^18` and truncated toward zero, and this is exact whenever the literal
has at most 18 fractional digits and the product coefficient stays within
the context precision of 28 significant digits (in particular `0.01`
yields exactly `10^16` wei); with more than 18 fractional digits (same
precision bound) the conversion truncates deterministically toward zero.
Coefficients beyond 28 significant digits are rounded half-even by the
default context before truncation, and the `deposit_eth` path first
coerces the literal through binary floating point, so neither is covered
by the exactness statement. -/
theorem c3_amended :
    (∀ w : Wallet, parse_withdraw_args w
        "0xabcdef0123456789abcdef0123456789abcdef01 0.01" =
      invoke_contract_function w "withdraw"
        [.str "0xabcdef0123456789abcdef0123456789abcdef01", .int 10000000000000000]
        pyDecZero) ∧
    (∀ x : PyDec, -18 ≤ x.exp → numDigits (x.coeff * 10 ^ 18) ≤ 28 →
      intOfDec (decTimesPow18 x) =
        (if x.neg then -1 else 1) * ((x.coeff : Int) * (10 : Int) ^ (x.exp + 18).toNat)) ∧
    (∀ x : PyDec, x.exp < -18 → numDigits (x.coeff * 10 ^ 18) ≤ 28 →
      intOfDec (decTimesPow18 x) =
        (if x.neg then -1 else 1) * ((x.coeff / 10 ^ (-(x.exp + 18)).toNat : Nat) : Int)) := by
  refine ⟨fun w => rfl, ?_, ?_⟩
  · intro x hexp hnd
    rw [decTimesPow18_no_round x hnd, intOfDec_def]
    congr 1
    by_cases h0 : (0 : Int) ≤ x.exp
    · have ht : (x.exp + 18).toNat = x.exp.toNat + 18 := by omega
      simp only [h0, if_true, ht]
      push_cast
      rw [pow_add]
      ring
    · have ht : (x.exp + 18).toNat = 18 - (-x.exp).toNat := by omega
      have hsplit : (10 : Nat) ^ 18 = 10 ^ (18 - (-x.exp).toNat) * 10 ^ (-x.exp).toNat := by
        rw [← pow_add]
        congr 1
        omega
      have hdiv : x.coeff * 10 ^ 18 / 10 ^ (-x.exp).toNat =
          x.coeff * 10 ^ (18 - (-x.exp).toNat) := by
        rw [hsplit, ← mul_assoc, Nat.mul_div_cancel]
        positivity
      simp only [h0, if_false, hdiv, ht]
      push_cast
      ring
  · intro x hexp hnd
    rw [decTimesPow18_no_round x hnd, intOfDec_def]
    have h0 : ¬ (0 : Int) ≤ x.exp := by omega
    have ht : (-x.exp).toNat = 18 + (-(x.exp + 18)).toNat := by omega
    have hdiv : x.coeff * 10 ^ 18 / 10 ^ (-x.exp).toNat =
        x.coeff / 10 ^ (-(x.exp + 18)).toNat := by
      rw [ht, pow_add, ← Nat.div_div_eq_div_mul, Nat.mul_div_cancel]
      positivity
    simp only [h0, if_false, hdiv]

/-- Witness for C3 amended: `0.01` has two fractional digits and a
19-digit product coefficient, and converts to exactly `10^16` wei. -/
theorem c3_amended_witness :
    intOfDec (decTimesPow18 ⟨false, 1, -2⟩) = 10000000000000000 :=
  (c3_amended.2.1 ⟨false, 1, -2⟩ (by decide) (by decide)).trans (by decide)

set_option maxRecDepth 8000 in
/-- C4 counterexample: `int("-5")` succeeds, so the deposit_erc20 parser
yields the negative amount `-5` — not a non-negative integer and not the
`NotAnIntegerError` text — and forwards it into the contract-call path:
with a well-formed token address the invocation reaches the encoder,
which rejects `-5` as a `uint256` inside the dispatcher's `try`, so the
tool answers with an `Error calling depositERC20:` execution error
instead.  (The encoder message wording is the model's, see `encode_abi`;
the refuting facts — the parser accepts `-5` and produces no
`NotAnIntegerError` — are the program's.) -/
theorem c4_counterexample :
    pyint "-5" = some (-5) ∧
    parse_deposit_erc20_args
      ⟨fun _ => .ok "0xhash", fun _ => .ok (), fun _ _ _ _ => .error ""⟩
      "0x1234567890abcdef1234567890abcdef12345678 -5" =
      "Error calling depositERC20: One or more arguments could not be encoded for depositERC20" ∧
    parse_deposit_erc20_args
      ⟨fun _ => .ok "0xhash", fun _ => .ok (), fun _ _ _ _ => .error ""⟩
      "0x1234567890abcdef1234567890abcdef12345678 -5" ≠
      "Error: AMOUNT must be an integer." := by
  exact ⟨by decide, by decide, by decide⟩

/-- C4 amended: for the integer-typed amount token of `deposit_erc20` and
`withdraw_erc20`, the parser yields an arbitrary-precision integer —
negative literals included: they are forwarded into the contract-call
path rather than rejected by the parser (the encoder subsequently
refuses them as `uint256`) — and a token that is not an optionally-signed
integer literal yields `Error: AMOUNT must be an integer.` for every
wallet behaviour, so no contract call is attempted. -/
theorem c4_amended (w : Wallet) (s : String) :
    (∀ t a, pySplit (pyStrip s) = [t, a] → pyint a = none →
      parse_deposit_erc20_args w s = "Error: AMOUNT must be an integer.") ∧
    (∀ t a n, pySplit (pyStrip s) = [t, a] → pyint a = some n →
      parse_deposit_erc20_args w s = deposit_erc20_to_contract w t n) ∧
    (∀ t b a, pySplit (pyStrip s) = [t, b, a] → pyint a = none →
      parse_withdraw_erc20_args w s = "Error: AMOUNT must be an integer.") ∧
    (∀ t b a n, pySplit (pyStrip s) = [t, b, a] → pyint a = some n →
      parse_withdraw_erc20_args w s = withdraw_erc20_from_contract w t b n) := by
  refine ⟨?_, ?_, ?_, ?_⟩
  · intro t a hsplit hint
    simp [parse_deposit_erc20_args, hsplit, hint]
  · intro t a n hsplit hint
    simp [parse_deposit_erc20_args, hsplit, hint]
  · intro t b a hsplit hint
    simp [parse_withdraw_erc20_args, hsplit, hint]
  · intro t b a n hsplit hint
    simp [parse_withdraw_erc20_args, hsplit, hint]

/-- Witness for C4 amended: a malformed amount is rejected with the
fixed message; a negative amount parses and is forwarded. -/
theorem c4_amended_witness :
    parse_deposit_erc20_args
      ⟨fun _ => .ok "0xhash", fun _ => .ok (), fun _ _ _ _ => .ok 0⟩
      "0xToken 12abc" = "Error: AMOUNT must be an integer." ∧
    parse_deposit_erc20_args
      ⟨fun _ => .ok "0xhash", fun _ => .ok (), fun _ _ _ _ => .ok 0⟩
      "0xToken -5" =
      deposit_erc20_to_contract
        ⟨fun _ => .ok "0xhash", fun _ => .ok (), fun _ _ _ _ => .ok 0⟩ "0xToken" (-5) :=
  ⟨(c4_amended _ "0xToken 12abc").1 "0xToken" "12abc" (by decide) (by decide),
   (c4_amended _ "0xToken -5").2.1 "0xToken" "-5" (-5) (by decide) (by decide)⟩

/-- C8: address-typed tokens are forwarded verbatim, with no checksum or
format validation by any parser: whatever string appears in an address
position of a well-formed argument list reaches the encoder unchanged
inside the argument list of the contract call (and for the balance tool,
stripped of surrounding whitespace only). -/
theorem c8_address_passthrough (w : Wallet) (s t a : String) :
    (∀ n, pySplit (pyStrip s) = [t, a] → pyint a = some n →
      parse_deposit_erc20_args w s =
        invoke_contract_function w "depositERC20" [.str t, .int n] pyDecZero) ∧
    (∀ x, pySplit (pyStrip s) = [t, a] → parseDecimal a = some x →
      parse_withdraw_args w s =
        invoke_contract_function w "withdraw"
          [.str t, .int (intOfDec (decTimesPow18 x))] pyDecZero) ∧
    (∀ b n, pySplit (pyStrip s) = [t, b, a] → pyint a = some n →
      parse_withdraw_erc20_args w s =
        invoke_contract_function w "withdrawERC20" [.str t, .str b, .int n] pyDecZero) ∧
    (pyStrip s ≠ "" →
      parse_erc20_balance_args w s =
        read_contract_function w "getERC20Balance" [.str (pyStrip s)]) := by
  refine ⟨?_, ?_, ?_, ?_⟩
  · intro n hsplit hint
    simp [parse_deposit_erc20_args, hsplit, hint, deposit_erc20_to_contract]
  · intro x hsplit hdec
    simp [parse_withdraw_args, hsplit, hdec, withdraw_from_contract]
  · intro b n hsplit hint
    simp [parse_withdraw_erc20_args, hsplit, hint, withdraw_erc20_from_contract]
  · intro hne
    simp [parse_erc20_balance_args, hne, get_contract_erc20_balance]

/-- Witness for C8: a token that is not remotely address-shaped passes the
parser untouched and appears verbatim in the call arguments. -/
theorem c8_witness :
    parse_deposit_erc20_args
      ⟨fun _ => .ok "0xhash", fun _ => .ok (), fun _ _ _ _ => .ok 0⟩
      "not-a-valid-address 7" =
      invoke_contract_function
        ⟨fun _ => .ok "0xhash", fun _ => .ok (), fun _ _ _ _ => .ok 0⟩
        "depositERC20" [.str "not-a-valid-address", .int 7] pyDecZero ∧
    parse_erc20_balance_args
      ⟨fun _ => .ok "0xhash", fun _ => .ok (), fun _ _ _ _ => .ok 0⟩
      "  0xABC " =
      read_contract_function
        ⟨fun _ => .ok "0xhash", fun _ => .ok (), fun _ _ _ _ => .ok 0⟩
        "getERC20Balance" [.str (pyStrip "  0xABC ")] :=
  ⟨(c8_address_passthrough _ "not-a-valid-address 7" "not-a-valid-address" "7").1
      7 (by decide) (by decide),
   (c8_address_passthrough _ "  0xABC " "" "").2.2.2 (by decide)⟩

/-- The stripped string is empty exactly when the input is all
whitespace. -/
theorem pyStrip_eq_empty_iff (s : String) :
    pyStrip s = "" ↔ ∀ c ∈ s.data, isPySpace c = true := by
  have h1 : pyStrip s = "" ↔ pyStripChars s.data = [] := by
    constructor
    · intro h
      have := congrArg String.data h
      simpa [pyStrip] using this
    · intro h
      simp [pyStrip, h]
  have h2 : pyStripChars s.data = [] ↔ ∀ c ∈ s.data, isPySpace c = true := by
    unfold pyStripChars
    rw [List.reverse_eq_nil_iff, List.dropWhile_eq_nil_iff]
    constructor
    · intro h c hc
      rw [← List.takeWhile_append_dropWhile (p := isPySpace) (l := s.data)] at hc
      rcases List.mem_append.mp hc with htw | hdw
      · exact List.mem_takeWhile_imp htw
      · exact h c (List.mem_reverse.mpr hdw)
    · intro h x hx
      exact h x ((List.dropWhile_sublist _).subset (List.mem_reverse.mp hx))
  rw [h1, h2]

/-- C10: the ERC20-balance tool rejects an empty or all-whitespace input
with `Error: Provide a valid token address.` (for every wallet behaviour,
so no read call is observable), and accepts any input containing a
non-whitespace character, forwarding it with surrounding whitespace
stripped. -/
theorem c10_erc20_balance_args (w : Wallet) (s : String) :
    ((∀ c ∈ s.data, isPySpace c = true) →
      parse_erc20_balance_args w s = .strVal "Error: Provide a valid token address.") ∧
    ((∃ c ∈ s.data, isPySpace c = false) →
      parse_erc20_balance_args w s = get_contract_erc20_balance w (pyStrip s)) := by
  constructor
  · intro h
    have he : pyStrip s = "" := (pyStrip_eq_empty_iff s).mpr h
    simp [parse_erc20_balance_args, he]
  · rintro ⟨c, hc, hcs⟩
    have hne : pyStrip s ≠ "" := by
      intro he
      have := (pyStrip_eq_empty_iff s).mp he c hc
      simp [this] at hcs
    simp [parse_erc20_balance_args, hne]

/-- Witness for C10: three spaces are rejected without a read; a padded
token is forwarded stripped. -/
theorem c10_witness :
    parse_erc20_balance_args
      ⟨fun _ => .ok "", fun _ => .ok (), fun _ _ _ _ => .ok 7⟩ "   " =
      .strVal "Error: Provide a valid token address." ∧
    parse_erc20_balance_args
      ⟨fun _ => .ok "", fun _ => .ok (), fun _ _ _ _ => .ok 7⟩ " 0xToken " =
      get_contract_erc20_balance
        ⟨fun _ => .ok "", fun _ => .ok (), fun _ _ _ _ => .ok 7⟩ (pyStrip " 0xToken ") :=
  ⟨(c10_erc20_balance_args _ "   ").1 (by decide),
   (c10_erc20_balance_args _ " 0xToken ").2 ⟨'0', by decide, by decide⟩⟩

end Chatbot
